import Mathlib

/-!
Verification of the astroutils eclipse module.

The embedding follows the two source files:
- `src/python/utils/math.py`: `norm`, `unit_vector`, `angle_between_vectors_rad`,
  `angle_between_vectors_deg` over 3-component real vectors.
- `src/python/eclipse.py`: `check_object_umbra_penumba` (Vallado Algorithm 34
  shadow test) and the `check_eclipse` wrapper.

Floating-point numbers are modelled by real numbers; NumPy 3-arrays by a
fixed 3-component vector structure. `np.sum(a * b, axis=0)` on 3-vectors is
the dot product, written `dotP`.
-/

namespace Astro

/-- A 3-component real vector, the shape of every array the module handles. -/
@[ext]
structure Vec3 where
  x : ℝ
  y : ℝ
  z : ℝ

/-- The zero vector. -/
def Vec3.zero : Vec3 := ⟨0, 0, 0⟩

/-- Componentwise negation, `-v` on NumPy arrays. -/
def Vec3.neg (v : Vec3) : Vec3 := ⟨-v.x, -v.y, -v.z⟩

/-- Scalar multiplication `c * v` on NumPy arrays (componentwise). -/
def Vec3.smul (c : ℝ) (v : Vec3) : Vec3 := ⟨c * v.x, c * v.y, c * v.z⟩

/-- `np.sum(a * b, axis=0)` on 3-vectors: the Euclidean dot product. -/
def dotP (a b : Vec3) : ℝ := a.x * b.x + a.y * b.y + a.z * b.z

/-- `norm(x)` from `utils/math.py`: `np.linalg.norm`, the Euclidean length. -/
noncomputable def norm (v : Vec3) : ℝ := Real.sqrt (v.x ^ 2 + v.y ^ 2 + v.z ^ 2)

/-- `unit_vector(x)` from `utils/math.py`: `x / np.linalg.norm(x, axis=0)`. -/
noncomputable def unit_vector (v : Vec3) : Vec3 :=
  ⟨v.x / norm v, v.y / norm v, v.z / norm v⟩

/-- `angle_between_vectors_rad(a, b)` from `utils/math.py`:
`np.arccos(np.sum(unit_vector(a) * unit_vector(b), axis=0))`.
Note: the source applies `arccos` to the raw dot product, with no clamping
to `[-1, 1]`. -/
noncomputable def angle_between_vectors_rad (a b : Vec3) : ℝ :=
  Real.arccos (dotP (unit_vector a) (unit_vector b))

/-- `angle_between_vectors_deg(a, b)` from `utils/math.py`:
`np.rad2deg(np.arccos(np.sum(unit_vector(a) * unit_vector(b), axis=0)))`,
where `np.rad2deg` multiplies by `180 / pi`. -/
noncomputable def angle_between_vectors_deg (a b : Vec3) : ℝ :=
  Real.arccos (dotP (unit_vector a) (unit_vector b)) * (180 / Real.pi)

/-- Modelled from the spec: the module `utils/constants.py` is not in the
sources; the spec gives `earthRadiusKm ≈ 6378.137`. -/
def earth_radius_km : ℝ := 6378.137

/-- Modelled from the spec: the module `utils/constants.py` is not in the
sources; the spec gives `sunRadiusKm ≈ 695700`. -/
def sun_radius_km : ℝ := 695700

/-- `check_object_umbra_penumba` from `eclipse.py` (Vallado Algorithm 34,
spherical Earth and Sun). Returns `(in_penumbra, in_umbra)`. -/
noncomputable def check_object_umbra_penumba
    (earth_object_position_vector_eci earth_sun_position_vector_eci : Vec3) :
    Bool × Bool :=
  let earth_sun_distance := norm earth_sun_position_vector_eci
  let umbra_angle := Real.arctan ((sun_radius_km - earth_radius_km) / earth_sun_distance)
  let penumbra_angle := Real.arctan ((sun_radius_km + earth_radius_km) / earth_sun_distance)
  if dotP earth_object_position_vector_eci earth_sun_position_vector_eci < 0 then
    let angle := angle_between_vectors_rad
      (Vec3.neg earth_sun_position_vector_eci) earth_object_position_vector_eci
    let sathoriz := norm earth_object_position_vector_eci * Real.cos angle
    let satvert := norm earth_object_position_vector_eci * Real.sin angle
    let x := earth_radius_km / Real.sin penumbra_angle
    let penvert := Real.tan penumbra_angle * (x + sathoriz)
    if satvert ≤ penvert then
      let y := earth_radius_km / Real.sin umbra_angle
      let umbvert := Real.tan umbra_angle * (y - sathoriz)
      if satvert ≤ umbvert then (true, true) else (true, false)
    else (false, false)
  else (false, false)

/-- `check_eclipse` from `eclipse.py`: calls the umbra/penumbra test with the
Sun vector negated, and returns true iff either output is true. -/
noncomputable def check_eclipse
    (earth_object_position_vector_eci earth_sun_position_vector_eci : Vec3) : Bool :=
  let p := check_object_umbra_penumba earth_object_position_vector_eci
    (Vec3.neg earth_sun_position_vector_eci)
  if p.1 || p.2 then true else false

lemma sum_sq_pos {v : Vec3} (h : v ≠ Vec3.zero) :
    0 < v.x ^ 2 + v.y ^ 2 + v.z ^ 2 := by
  rcases lt_or_eq_of_le
      (by positivity : (0:ℝ) ≤ v.x ^ 2 + v.y ^ 2 + v.z ^ 2) with hlt | heq
  · exact hlt
  · exfalso
    have hx : v.x = 0 := by nlinarith [sq_nonneg v.x, sq_nonneg v.y, sq_nonneg v.z]
    have hy : v.y = 0 := by nlinarith [sq_nonneg v.x, sq_nonneg v.y, sq_nonneg v.z]
    have hz : v.z = 0 := by nlinarith [sq_nonneg v.x, sq_nonneg v.y, sq_nonneg v.z]
    exact h (Vec3.ext hx hy hz)

lemma norm_pos {v : Vec3} (h : v ≠ Vec3.zero) : 0 < norm v :=
  Real.sqrt_pos.2 (sum_sq_pos h)

lemma norm_sq {v : Vec3} : norm v ^ 2 = v.x ^ 2 + v.y ^ 2 + v.z ^ 2 :=
  Real.sq_sqrt (by positivity)

lemma dotP_unit_self {v : Vec3} (h : v ≠ Vec3.zero) :
    dotP (unit_vector v) (unit_vector v) = 1 := by
  have hn := norm_pos h
  have hs := sum_sq_pos h
  have hsq := @norm_sq v
  unfold dotP unit_vector
  field_simp
  nlinarith [hsq]

/-- C1: for every body position and Sun position, `check_eclipse` equals the
logical OR of the two booleans returned by `check_object_umbra_penumba`
applied to the body position and the negated Sun vector. -/
theorem check_eclipse_eq_or (body sun : Vec3) :
    check_eclipse body sun =
      ((check_object_umbra_penumba body (Vec3.neg sun)).1 ||
        (check_object_umbra_penumba body (Vec3.neg sun)).2) := by
  unfold check_eclipse
  cases h : (check_object_umbra_penumba body (Vec3.neg sun)) with
  | mk p u => cases p <;> cases u <;> simp

/-- C2: whenever `dot(bodyPos, sunPos) ≥ 0`, the umbra/penumbra test returns
`(false, false)` without entering the cone-geometry branch. -/
theorem umbra_penumbra_sunlit_side (body sun : Vec3) (h : 0 ≤ dotP body sun) :
    check_object_umbra_penumba body sun = (false, false) := by
  unfold check_object_umbra_penumba
  rw [if_neg (not_lt.2 h)]

/-- Witness for `C2` at body `(1,0,0)`, sun `(1,0,0)` (dot = 1 ≥ 0). -/
theorem umbra_penumbra_sunlit_side_witness :
    (0:ℝ) ≤ dotP ⟨1, 0, 0⟩ ⟨1, 0, 0⟩ ∧
      check_object_umbra_penumba ⟨1, 0, 0⟩ ⟨1, 0, 0⟩ = (false, false) :=
  ⟨by norm_num [dotP], umbra_penumbra_sunlit_side ⟨1, 0, 0⟩ ⟨1, 0, 0⟩ (by norm_num [dotP])⟩

/-- C8: for every non-zero vector, `unit_vector` produces a vector of
Euclidean norm 1. -/
theorem norm_unit_vector_eq_one (v : Vec3) (h : v ≠ Vec3.zero) :
    norm (unit_vector v) = 1 := by
  have hn := norm_pos h
  have hsq := @norm_sq v
  unfold norm unit_vector
  have : (v.x / norm v) ^ 2 + (v.y / norm v) ^ 2 + (v.z / norm v) ^ 2 = 1 := by
    field_simp
    nlinarith [hsq]
  rw [this, Real.sqrt_one]

/-- Witness for `C8` at `v = (3, 4, 0)`. -/
theorem norm_unit_vector_eq_one_witness :
    norm (unit_vector ⟨3, 4, 0⟩) = 1 :=
  norm_unit_vector_eq_one ⟨3, 4, 0⟩
    (fun hc => by have := congrArg Vec3.x hc; simp [Vec3.zero] at this)

/-- C10: for every non-zero vector, rescaling its unit vector by its norm
recovers the original vector. -/
theorem smul_norm_unit_vector (v : Vec3) (h : v ≠ Vec3.zero) :
    Vec3.smul (norm v) (unit_vector v) = v := by
  have hn := (norm_pos h).ne'
  unfold Vec3.smul unit_vector
  ext <;> simp <;> field_simp

/-- Witness for `C10` at `v = (3, 4, 0)`. -/
theorem smul_norm_unit_vector_witness :
    Vec3.smul (norm ⟨3, 4, 0⟩) (unit_vector ⟨3, 4, 0⟩) = ⟨3, 4, 0⟩ :=
  smul_norm_unit_vector ⟨3, 4, 0⟩
    (fun hc => by have := congrArg Vec3.x hc; simp [Vec3.zero] at this)

/-- C9: for every pair of non-zero vectors, the degree variant equals the
radian variant multiplied by `180 / π`. -/
theorem angle_deg_eq_rad_mul (a b : Vec3) (ha : a ≠ Vec3.zero) (hb : b ≠ Vec3.zero) :
    angle_between_vectors_deg a b = angle_between_vectors_rad a b * (180 / Real.pi) :=
  rfl

/-- Witness for `C9` at `a = (1, 0, 0)`, `b = (0, 1, 0)`. -/
theorem angle_deg_eq_rad_mul_witness :
    angle_between_vectors_deg ⟨1, 0, 0⟩ ⟨0, 1, 0⟩ =
      angle_between_vectors_rad ⟨1, 0, 0⟩ ⟨0, 1, 0⟩ * (180 / Real.pi) :=
  angle_deg_eq_rad_mul ⟨1, 0, 0⟩ ⟨0, 1, 0⟩
    (fun hc => by have := congrArg Vec3.x hc; simp [Vec3.zero] at this)
    (fun hc => by have := congrArg Vec3.y hc; simp [Vec3.zero] at this)

lemma norm_neg_eq {v : Vec3} : norm (Vec3.neg v) = norm v := by
  unfold norm Vec3.neg
  ring_nf

lemma dotP_unit_neg_self {v : Vec3} (h : v ≠ Vec3.zero) :
    dotP (unit_vector v) (unit_vector (Vec3.neg v)) = -1 := by
  have huu := dotP_unit_self h
  have hnn : norm (Vec3.neg v) = norm v := norm_neg_eq
  unfold dotP unit_vector at huu ⊢
  rw [hnn]
  dsimp only [Vec3.neg] at huu ⊢
  linear_combination -huu

/-- C7: for every non-zero vector `a`, the angle from `a` to itself is 0 and
the angle from `a` to `-a` is `π`; for every pair of non-zero vectors the
angle lies in `[0, π]`. -/
theorem angle_between_vectors_rad_props (a b : Vec3)
    (ha : a ≠ Vec3.zero) (hb : b ≠ Vec3.zero) :
    angle_between_vectors_rad a a = 0 ∧
      angle_between_vectors_rad a (Vec3.neg a) = Real.pi ∧
      (0 ≤ angle_between_vectors_rad a b ∧ angle_between_vectors_rad a b ≤ Real.pi) := by
  refine ⟨?_, ?_, Real.arccos_nonneg _, Real.arccos_le_pi _⟩
  · rw [angle_between_vectors_rad, dotP_unit_self ha, Real.arccos_one]
  · rw [angle_between_vectors_rad, dotP_unit_neg_self ha, Real.arccos_neg_one]

/-- Witness for `C7` at `a = (1, 0, 0)`, `b = (0, 1, 0)`. -/
theorem angle_between_vectors_rad_props_witness :
    angle_between_vectors_rad ⟨1, 0, 0⟩ ⟨1, 0, 0⟩ = 0 ∧
      angle_between_vectors_rad ⟨1, 0, 0⟩ (Vec3.neg ⟨1, 0, 0⟩) = Real.pi ∧
      (0 ≤ angle_between_vectors_rad ⟨1, 0, 0⟩ ⟨0, 1, 0⟩ ∧
        angle_between_vectors_rad ⟨1, 0, 0⟩ ⟨0, 1, 0⟩ ≤ Real.pi) :=
  angle_between_vectors_rad_props ⟨1, 0, 0⟩ ⟨0, 1, 0⟩
    (fun hc => by have := congrArg Vec3.x hc; simp [Vec3.zero] at this)
    (fun hc => by have := congrArg Vec3.y hc; simp [Vec3.zero] at this)

lemma check_shape (body sun : Vec3) :
    check_object_umbra_penumba body sun = (true, true) ∨
      check_object_umbra_penumba body sun = (true, false) ∨
      check_object_umbra_penumba body sun = (false, false) := by
  simp only [check_object_umbra_penumba]
  split_ifs <;> simp

/-- C4: whenever the umbra/penumbra test reports `in_umbra = true`, it also
reports `in_penumbra = true`. -/
theorem umbra_implies_penumbra (body sun : Vec3)
    (h : (check_object_umbra_penumba body sun).2 = true) :
    (check_object_umbra_penumba body sun).1 = true := by
  rcases check_shape body sun with hc | hc | hc <;> rw [hc] at h ⊢ <;> simp_all

lemma norm_xaxis (c : ℝ) : norm ⟨c, 0, 0⟩ = |c| := by
  unfold norm
  rw [show c ^ 2 + (0:ℝ) ^ 2 + (0:ℝ) ^ 2 = c ^ 2 by ring, Real.sqrt_sq_eq_abs]

lemma norm_neg_xaxis (c : ℝ) : norm (Vec3.neg ⟨c, 0, 0⟩) = |c| := by
  unfold Vec3.neg norm
  dsimp only
  rw [show (-c) ^ 2 + (-(0:ℝ)) ^ 2 + (-(0:ℝ)) ^ 2 = c ^ 2 by ring, Real.sqrt_sq_eq_abs]

lemma angle_scenario :
    angle_between_vectors_rad (Vec3.neg ⟨149600000, 0, 0⟩) ⟨-42164, 0, 0⟩ = 0 := by
  have h1 : norm (Vec3.neg ⟨149600000, 0, 0⟩) = 149600000 := by
    rw [norm_neg_xaxis]; norm_num
  have h2 : norm (⟨-42164, 0, 0⟩ : Vec3) = 42164 := by
    rw [norm_xaxis]; norm_num
  unfold angle_between_vectors_rad
  have h3 : dotP (unit_vector (Vec3.neg ⟨149600000, 0, 0⟩)) (unit_vector ⟨-42164, 0, 0⟩)
      = 1 := by
    unfold dotP unit_vector
    rw [h1, h2]
    dsimp only [Vec3.neg]
    norm_num
  rw [h3, Real.arccos_one]

lemma umbra_scenario :
    check_object_umbra_penumba ⟨-42164, 0, 0⟩ ⟨149600000, 0, 0⟩ = (true, true) := by
  have hsun : norm (⟨149600000, 0, 0⟩ : Vec3) = 149600000 := by
    rw [norm_xaxis]; norm_num
  have hbody : norm (⟨-42164, 0, 0⟩ : Vec3) = 42164 := by
    rw [norm_xaxis]; norm_num
  have hdot : dotP ⟨-42164, 0, 0⟩ ⟨149600000, 0, 0⟩ < 0 := by norm_num [dotP]
  -- penumbra-cone half-angle argument
  have hpaa : (0:ℝ) < (sun_radius_km + earth_radius_km) / 149600000 := by
    norm_num [sun_radius_km, earth_radius_km]
  -- umbra-cone half-angle argument
  have huaa : (0:ℝ) < (sun_radius_km - earth_radius_km) / 149600000 := by
    norm_num [sun_radius_km, earth_radius_km]
  have harctan_pos : ∀ t : ℝ, 0 < t → 0 < Real.arctan t := by
    intro t ht
    have := Real.arctan_strictMono ht
    rwa [Real.arctan_zero] at this
  have harctan_lt : ∀ t : ℝ, Real.arctan t < Real.pi :=
    fun t => (Real.arctan_lt_pi_div_two t).trans (half_lt_self Real.pi_pos)
  have hsin_pa : 0 < Real.sin (Real.arctan ((sun_radius_km + earth_radius_km) / 149600000)) :=
    Real.sin_pos_of_pos_of_lt_pi (harctan_pos _ hpaa) (harctan_lt _)
  have hsin_ua : 0 < Real.sin (Real.arctan ((sun_radius_km - earth_radius_km) / 149600000)) :=
    Real.sin_pos_of_pos_of_lt_pi (harctan_pos _ huaa) (harctan_lt _)
  -- the penumbra condition at the scenario: vert = 0 ≤ penvert
  have hA : (0:ℝ) ≤ (sun_radius_km + earth_radius_km) / 149600000 *
      (earth_radius_km /
        Real.sin (Real.arctan ((sun_radius_km + earth_radius_km) / 149600000)) + 42164) := by
    have h1 : 0 ≤ earth_radius_km /
        Real.sin (Real.arctan ((sun_radius_km + earth_radius_km) / 149600000)) :=
      div_nonneg (by norm_num [earth_radius_km]) hsin_pa.le
    nlinarith
  -- sin(arctan t) ≤ t for t ≥ 0
  have hsin_le : Real.sin (Real.arctan ((sun_radius_km - earth_radius_km) / 149600000)) ≤
      (sun_radius_km - earth_radius_km) / 149600000 := by
    rw [Real.sin_arctan]
    refine div_le_self huaa.le ?_
    refine (Real.le_sqrt (by norm_num) (by positivity)).2 ?_
    nlinarith [sq_nonneg ((sun_radius_km - earth_radius_km) / 149600000)]
  -- the umbra cone vertex sits farther than 42164 km behind Earth
  have hy : (42164:ℝ) ≤ earth_radius_km /
      Real.sin (Real.arctan ((sun_radius_km - earth_radius_km) / 149600000)) := by
    rw [le_div_iff₀ hsin_ua]
    have hbound : (sun_radius_km - earth_radius_km) / 149600000 ≤ earth_radius_km / 42164 := by
      norm_num [sun_radius_km, earth_radius_km]
    nlinarith
  -- the umbra condition at the scenario: vert = 0 ≤ umbvert
  have hB : (0:ℝ) ≤ (sun_radius_km - earth_radius_km) / 149600000 *
      (earth_radius_km /
        Real.sin (Real.arctan ((sun_radius_km - earth_radius_km) / 149600000)) - 42164) := by
    nlinarith
  unfold check_object_umbra_penumba
  rw [if_pos hdot, angle_scenario, hsun, hbody]
  simp only [Real.sin_zero, Real.cos_zero, mul_zero, mul_one, Real.tan_arctan]
  rw [if_pos hA, if_pos hB]

/-- C6: for the geostationary-like scenario with the body at
`(-42164, 0, 0)` km and the Sun at `(1.496e8, 0, 0)` km, the umbra/penumbra
test reports `in_penumbra = true` and `in_umbra = true`. -/
theorem umbra_scenario_geo :
    check_object_umbra_penumba ⟨-42164, 0, 0⟩ ⟨149600000, 0, 0⟩ = (true, true) :=
  umbra_scenario

/-- Witness for `C4` at the geostationary-like scenario, where the test
reports `in_umbra = true`. -/
theorem umbra_implies_penumbra_witness :
    (check_object_umbra_penumba ⟨-42164, 0, 0⟩ ⟨149600000, 0, 0⟩).2 = true ∧
      (check_object_umbra_penumba ⟨-42164, 0, 0⟩ ⟨149600000, 0, 0⟩).1 = true :=
  ⟨by rw [umbra_scenario], umbra_implies_penumbra _ _ (by rw [umbra_scenario])⟩

/-- C3: on the shadow side (`dot(bodyPos, sunPos) < 0`), `in_penumbra` is
true exactly when `vert ≤ tan(penumbraAngle) * (earthRadius / sin(penumbraAngle)
+ horiz)`, and `in_umbra` is true exactly when additionally `vert ≤
tan(umbraAngle) * (earthRadius / sin(umbraAngle) - horiz)`, where the angles
are `atan((sunRadius ± earthRadius) / norm(sunPos))`, `angle` is the angle
between `-sunPos` and `bodyPos`, `horiz = |bodyPos| * cos(angle)` and
`vert = |bodyPos| * sin(angle)`. -/
theorem umbra_penumbra_conditions (body sun : Vec3) (h : dotP body sun < 0) :
    ((check_object_umbra_penumba body sun).1 = true ↔
      norm body * Real.sin (angle_between_vectors_rad (Vec3.neg sun) body) ≤
        Real.tan (Real.arctan ((sun_radius_km + earth_radius_km) / norm sun)) *
          (earth_radius_km /
              Real.sin (Real.arctan ((sun_radius_km + earth_radius_km) / norm sun)) +
            norm body * Real.cos (angle_between_vectors_rad (Vec3.neg sun) body))) ∧
    ((check_object_umbra_penumba body sun).2 = true ↔
      (norm body * Real.sin (angle_between_vectors_rad (Vec3.neg sun) body) ≤
        Real.tan (Real.arctan ((sun_radius_km + earth_radius_km) / norm sun)) *
          (earth_radius_km /
              Real.sin (Real.arctan ((sun_radius_km + earth_radius_km) / norm sun)) +
            norm body * Real.cos (angle_between_vectors_rad (Vec3.neg sun) body)) ∧
       norm body * Real.sin (angle_between_vectors_rad (Vec3.neg sun) body) ≤
        Real.tan (Real.arctan ((sun_radius_km - earth_radius_km) / norm sun)) *
          (earth_radius_km /
              Real.sin (Real.arctan ((sun_radius_km - earth_radius_km) / norm sun)) -
            norm body * Real.cos (angle_between_vectors_rad (Vec3.neg sun) body)))) := by
  simp only [check_object_umbra_penumba]
  rw [if_pos h]
  split_ifs with h1 h2 <;> simp_all

/-- Witness for `C3` at body `(-1, 0, 0)`, sun `(1, 0, 0)` (dot = -1 < 0). -/
theorem umbra_penumbra_conditions_witness :
    dotP ⟨-1, 0, 0⟩ ⟨1, 0, 0⟩ < 0 ∧
    (((check_object_umbra_penumba ⟨-1, 0, 0⟩ ⟨1, 0, 0⟩).1 = true ↔
      norm ⟨-1, 0, 0⟩ *
          Real.sin (angle_between_vectors_rad (Vec3.neg ⟨1, 0, 0⟩) ⟨-1, 0, 0⟩) ≤
        Real.tan (Real.arctan ((sun_radius_km + earth_radius_km) / norm ⟨1, 0, 0⟩)) *
          (earth_radius_km /
              Real.sin (Real.arctan ((sun_radius_km + earth_radius_km) / norm ⟨1, 0, 0⟩)) +
            norm ⟨-1, 0, 0⟩ *
              Real.cos (angle_between_vectors_rad (Vec3.neg ⟨1, 0, 0⟩) ⟨-1, 0, 0⟩))) ∧
    ((check_object_umbra_penumba ⟨-1, 0, 0⟩ ⟨1, 0, 0⟩).2 = true ↔
      (norm ⟨-1, 0, 0⟩ *
          Real.sin (angle_between_vectors_rad (Vec3.neg ⟨1, 0, 0⟩) ⟨-1, 0, 0⟩) ≤
        Real.tan (Real.arctan ((sun_radius_km + earth_radius_km) / norm ⟨1, 0, 0⟩)) *
          (earth_radius_km /
              Real.sin (Real.arctan ((sun_radius_km + earth_radius_km) / norm ⟨1, 0, 0⟩)) +
            norm ⟨-1, 0, 0⟩ *
              Real.cos (angle_between_vectors_rad (Vec3.neg ⟨1, 0, 0⟩) ⟨-1, 0, 0⟩)) ∧
       norm ⟨-1, 0, 0⟩ *
          Real.sin (angle_between_vectors_rad (Vec3.neg ⟨1, 0, 0⟩) ⟨-1, 0, 0⟩) ≤
        Real.tan (Real.arctan ((sun_radius_km - earth_radius_km) / norm ⟨1, 0, 0⟩)) *
          (earth_radius_km /
              Real.sin (Real.arctan ((sun_radius_km - earth_radius_km) / norm ⟨1, 0, 0⟩)) -
            norm ⟨-1, 0, 0⟩ *
              Real.cos (angle_between_vectors_rad (Vec3.neg ⟨1, 0, 0⟩) ⟨-1, 0, 0⟩))))) :=
  ⟨by norm_num [dotP],
    umbra_penumbra_conditions ⟨-1, 0, 0⟩ ⟨1, 0, 0⟩ (by norm_num [dotP])⟩

end Astro
